import Mathlib

/-!
Shallow embedding of the soroban-rpc preflight library interface
(`src/cmd/soroban-rpc/lib/fees.h` and `src/cmd/soroban-rpc/lib/preflight.h`)
together with the fee-computation and preflight-simulation behaviour those
headers declare.  The headers only declare the data contract and the entry
points; the function bodies live outside the header corpus, so they are
modelled here from the specification (each such definition says so in its
doc comment).  Machine integers are embedded as `Nat` (the unsigned
`uint32_t`/`uint64_t` quantities) and `Int` (the signed `int64_t` prices),
with the `uint64_t` range of the result checked explicitly.
-/

/-- Ceiling division on naturals: `ceil_div a b = ⌈a / b⌉` for `b > 0`
(used for the rounded-up billing of every divided resource dimension). -/
def ceil_div (a b : Nat) : Nat := (a + b - 1) / b

/-- From `fees.h`: `fee_per_instruction_increment` is the "Fee per
`INSTRUCTIONS_INCREMENT=10000` instructions". -/
def INSTRUCTIONS_INCREMENT : Nat := 10000

/-- Byte-denominated resource dimensions are billed per 1KB (1024 bytes),
rounded up. -/
def DATA_SIZE_1KB_INCREMENT : Nat := 1024

/-- Modelled from the spec: `TX_BASE_RESULT_SIZE` is the fixed base result
size constant added to `transaction_size_bytes` for the historical charge
("the history write size is based on transaction size and
`TX_BASE_RESULT_SIZE`" in `fees.h`).  The header does not carry its numeric
value; the protocol value 300 is used here. -/
def TX_BASE_RESULT_SIZE : Nat := 300

/-- Struct `TransactionResources` from `fees.h`: the measured quantities of a
simulated transaction.  All fields are `uint32_t` in the header, embedded
as `Nat`. -/
structure TransactionResources where
  /-- Number of CPU instructions. -/
  instructions : Nat
  /-- Number of ledger entries the transaction reads. -/
  read_entries : Nat
  /-- Number of ledger entries the transaction writes (these are also
  counted as entries that are being read for the sake of the respective
  fees, per the `fees.h` comment). -/
  write_entries : Nat
  /-- Number of bytes read from ledger. -/
  read_bytes : Nat
  /-- Number of bytes written to ledger. -/
  write_bytes : Nat
  /-- Size of the metadata that the transaction emits. -/
  metadata_size_bytes : Nat
  /-- Size of the transaction XDR. -/
  transaction_size_bytes : Nat
deriving DecidableEq

/-- Struct `FeeConfiguration` from `fees.h`: network-supplied per-unit prices.
All fields are `int64_t` in the header, embedded as `Int`. -/
structure FeeConfiguration where
  fee_per_instruction_increment : Int
  fee_per_read_entry : Int
  fee_per_write_entry : Int
  fee_per_read_1kb : Int
  fee_per_write_1kb : Int
  fee_per_historical_1kb : Int
  fee_per_metadata_1kb : Int
  fee_per_propagate_1kb : Int
deriving DecidableEq

/-- Struct `ComputeTransactionResourceFeeResult` from `fees.h`: the output pair,
both fields `uint64_t` in the header, embedded as `Nat` (the range check
is made explicit in `ComputeTransactionResourceFee`). -/
structure ComputeTransactionResourceFeeResult where
  fee : Nat
  refundable_fee : Nat
deriving DecidableEq

/-- The exact (unbounded mathematical integer) fee breakdown, before the
`uint64_t` range check of the output type. -/
structure FeeBreakdownExact where
  fee : Int
  refundable_fee : Int
deriving DecidableEq

/-- Modelled from the spec (§4.1; the body of the fee computation is not in
the header corpus): one resource dimension contributes
`ceil(quantity / increment) * price`. -/
def fee_for_increment (quantity increment : Nat) (price : Int) : Int :=
  (ceil_div quantity increment : Int) * price

/-- Modelled from the spec (§4.1): the non-refundable portion of the fee.
Instructions are billed per `INSTRUCTIONS_INCREMENT`, rounded up; entry
counts are billed per entry with no division, the written entries being
also counted as read entries (per the `fees.h` comment on
`write_entries`); byte-denominated dimensions are billed per 1KB, rounded
up; the historical charge is computed from `transaction_size_bytes` plus
`TX_BASE_RESULT_SIZE`; the propagate (bandwidth) charge from
`transaction_size_bytes` alone. -/
def nonRefundableFee (r : TransactionResources) (c : FeeConfiguration) : Int :=
  fee_for_increment r.instructions INSTRUCTIONS_INCREMENT c.fee_per_instruction_increment
  + ((r.read_entries + r.write_entries : Nat) : Int) * c.fee_per_read_entry
  + (r.write_entries : Int) * c.fee_per_write_entry
  + fee_for_increment r.read_bytes DATA_SIZE_1KB_INCREMENT c.fee_per_read_1kb
  + fee_for_increment r.write_bytes DATA_SIZE_1KB_INCREMENT c.fee_per_write_1kb
  + fee_for_increment (r.transaction_size_bytes + TX_BASE_RESULT_SIZE)
      DATA_SIZE_1KB_INCREMENT c.fee_per_historical_1kb
  + fee_for_increment r.transaction_size_bytes DATA_SIZE_1KB_INCREMENT c.fee_per_propagate_1kb

/-- Modelled from the spec (§3, §4.1): the refundable portion is the part
attributable to metadata (events plus entry diffs), billed per 1KB rounded
up. -/
def refundableFee (r : TransactionResources) (c : FeeConfiguration) : Int :=
  fee_for_increment r.metadata_size_bytes DATA_SIZE_1KB_INCREMENT c.fee_per_metadata_1kb

/-- Modelled from the spec (§4.1): the exact fee breakdown.  The returned
`fee` is the full charged minimum (non-refundable plus refundable part);
`refundable_fee` is the portion refunded when actual usage is lower. -/
def computeFeeExact (r : TransactionResources) (c : FeeConfiguration) : FeeBreakdownExact :=
  { fee := nonRefundableFee r c + refundableFee r c
    refundable_fee := refundableFee r c }

/-- Largest value representable in the `uint64_t` output fields. -/
def UINT64_MAX : Int := 2 ^ 64 - 1

/-- Modelled from the spec (§4.1, §7; `fees.h` declares only the entry
point): `ComputeTransactionResourceFee` produces the exact integer value of
the fee formula whenever it fits the `uint64_t` output type, and fails with
a distinct computation error instead of silently wrapping when it does
not. -/
def ComputeTransactionResourceFee (r : TransactionResources) (c : FeeConfiguration) :
    Except String ComputeTransactionResourceFeeResult :=
  if 0 ≤ (computeFeeExact r c).fee ∧ (computeFeeExact r c).fee ≤ UINT64_MAX ∧
      0 ≤ (computeFeeExact r c).refundable_fee ∧
      (computeFeeExact r c).refundable_fee ≤ UINT64_MAX then
    Except.ok { fee := (computeFeeExact r c).fee.toNat
                refundable_fee := (computeFeeExact r c).refundable_fee.toNat }
  else
    Except.error "fee computation overflow"

/-- The all-zero resource vector. -/
def zeroResources : TransactionResources :=
  { instructions := 0, read_entries := 0, write_entries := 0, read_bytes := 0
    write_bytes := 0, metadata_size_bytes := 0, transaction_size_bytes := 0 }

/-- The worked example's resource vector from the spec (§8). -/
def exampleResources : TransactionResources :=
  { instructions := 25000, read_entries := 2, write_entries := 1, read_bytes := 2048
    write_bytes := 1024, metadata_size_bytes := 512, transaction_size_bytes := 256 }

/-- The worked example's fee configuration from the spec (§8). -/
def exampleConfig : FeeConfiguration :=
  { fee_per_instruction_increment := 100, fee_per_read_entry := 10
    fee_per_write_entry := 20, fee_per_read_1kb := 5, fee_per_write_1kb := 5
    fee_per_historical_1kb := 2, fee_per_metadata_1kb := 3, fee_per_propagate_1kb := 1 }

/-- Modelled from the spec: the protocol-defined minimum resource fee,
derived from `TX_BASE_RESULT_SIZE` — the historical charge that even an
all-zero transaction pays. -/
def minimumResourceFee (c : FeeConfiguration) : Int :=
  (ceil_div TX_BASE_RESULT_SIZE DATA_SIZE_1KB_INCREMENT : Int) * c.fee_per_historical_1kb

/-- Componentwise order on resource vectors. -/
def resources_le (a b : TransactionResources) : Prop :=
  a.instructions ≤ b.instructions ∧ a.read_entries ≤ b.read_entries ∧
  a.write_entries ≤ b.write_entries ∧ a.read_bytes ≤ b.read_bytes ∧
  a.write_bytes ≤ b.write_bytes ∧ a.metadata_size_bytes ≤ b.metadata_size_bytes ∧
  a.transaction_size_bytes ≤ b.transaction_size_bytes

instance (a b : TransactionResources) : Decidable (resources_le a b) := by
  unfold resources_le
  infer_instance

/-- Type `xdr_t` from `preflight.h`: an opaque binary-encoded blob (a byte
buffer with its length), embedded as a list of bytes-as-naturals. -/
abbrev xdr_t : Type := List Nat

/-- Type `xdr_vector_t` from `preflight.h`: an array of XDR blobs. -/
abbrev xdr_vector_t : Type := List xdr_t

/-- Struct `ledger_info_t` from `preflight.h`: the simulation context.  The
unsigned machine integers are embedded as `Nat`. -/
structure ledger_info_t where
  protocol_version : Nat
  sequence_number : Nat
  timestamp : Nat
  network_passphrase : String
  base_reserve : Nat
  min_temp_entry_ttl : Nat
  min_persistent_entry_ttl : Nat
  max_entry_ttl : Nat
deriving DecidableEq

/-- Struct `resource_config_t` from `preflight.h`: extra instructions allowed
when budgeting. -/
structure resource_config_t where
  instruction_leeway : Nat
deriving DecidableEq

/-- Struct `preflight_result_t` from `preflight.h`.  The `error` field is a
nullable C string, embedded as `Option String`; the two `pre_restore`
fields are populated only on the expired-entry path, so the absent state
(null pointer / zero length buffer in C) is embedded as `none`. -/
structure preflight_result_t where
  /-- Error string in case of error, otherwise null. -/
  error : Option String
  /-- Array of SorobanAuthorizationEntries. -/
  auth : xdr_vector_t
  /-- XDR SCVal. -/
  result : xdr_t
  transaction_data : xdr_t
  /-- Minimum recommended resource fee. -/
  min_fee : Int
  /-- Array of XDR DiagnosticEvents. -/
  events : xdr_vector_t
  cpu_instructions : Nat
  memory_bytes : Nat
  /-- SorobanTransactionData XDR for a prerequired RestoreFootprint
  operation, absent when no footprint entry is expired. -/
  pre_restore_transaction_data : Option xdr_t
  /-- Minimum recommended resource fee for a prerequired RestoreFootprint
  operation, absent when no footprint entry is expired. -/
  pre_restore_min_fee : Option Int
deriving DecidableEq

/-- The extern snapshot-source callbacks that `preflight.h` declares, as
(name, number of arguments) pairs.  The header declares exactly one:
`extern xdr_t SnapshotSourceGet(uintptr_t handle, xdr_t ledger_key)`. -/
def snapshotSourceOps : List (String × Nat) := [("SnapshotSourceGet", 2)]

/-- One footprint entry touched by the executor: its ledger key, the size
of its ledger entry, and the ledger sequence it lives until (its TTL). -/
structure FootprintEntry where
  key : xdr_t
  entry_size : Nat
  live_until_ledger_seq : Nat
deriving DecidableEq

/-- The footprint discovered during simulation: read-only and read-write
entry sets (written entries are kept apart from the read-only ones). -/
structure Footprint where
  read_only : List FootprintEntry
  read_write : List FootprintEntry
deriving DecidableEq

/-- All entries of a footprint. -/
def Footprint.entries (f : Footprint) : List FootprintEntry :=
  f.read_only ++ f.read_write

/-- Modelled from the spec (§4.3; the executor VM is an external
collaborator): everything the executor reports back to the simulator from
one successful run. -/
structure ExecOutcome where
  footprint : Footprint
  instructions : Nat
  read_bytes : Nat
  write_bytes : Nat
  metadata_size_bytes : Nat
  transaction_size_bytes : Nat
  result : xdr_t
  auth : xdr_vector_t
  events : xdr_vector_t
  memory_bytes : Nat
deriving DecidableEq

/-- Modelled from the spec (§3, §4.3): finalize the `TransactionResources`
of a successful simulation from the executor outcome.  Written entries are
also counted among the read entries, so `read_entries` counts the whole
footprint and `write_entries` only its read-write part. -/
def finalizeResources (o : ExecOutcome) : TransactionResources :=
  { instructions := o.instructions
    read_entries := o.footprint.read_only.length + o.footprint.read_write.length
    write_entries := o.footprint.read_write.length
    read_bytes := o.read_bytes
    write_bytes := o.write_bytes
    metadata_size_bytes := o.metadata_size_bytes
    transaction_size_bytes := o.transaction_size_bytes }

/-- Modelled from the spec (§4.3; the XDR schema is treated as opaque
bytes): serialize a resource vector as the SorobanTransactionData blob.
Always a non-empty blob, so populated and absent states are distinct. -/
def encodeTransactionData (r : TransactionResources) : xdr_t :=
  [r.instructions, r.read_entries, r.write_entries, r.read_bytes,
   r.write_bytes, r.metadata_size_bytes, r.transaction_size_bytes]

/-- Modelled from the spec (§4.3): the resource vector of the prerequired
RestoreFootprint operation covering the expired footprint entries — each
expired entry is read and written back. -/
def restoreResources (expired : List FootprintEntry) : TransactionResources :=
  { instructions := 0
    read_entries := expired.length
    write_entries := expired.length
    read_bytes := (expired.map (·.entry_size)).sum
    write_bytes := (expired.map (·.entry_size)).sum
    metadata_size_bytes := (expired.map (·.entry_size)).sum
    transaction_size_bytes := (expired.map (·.key.length)).sum }

/-- The result envelope of a failed simulation: the error string is set
and no success field is populated (spec §4.3 Failed: "no partial
footprint/fee is reported — failure is all-or-nothing"). -/
def errorResult (msg : String) : preflight_result_t :=
  { error := some msg, auth := [], result := [], transaction_data := []
    min_fee := 0, events := [], cpu_instructions := 0, memory_bytes := 0
    pre_restore_transaction_data := none, pre_restore_min_fee := none }

/-- Modelled from the spec (§4.3; `preflight.h` declares only the entry
point): `preflight_invoke_hf_op`.  The external collaborators are explicit
parameters: `snapshot_source_get` embeds the extern `SnapshotSourceGet`
callback, `decodeOp` the (opaque-schema) XDR decoder for
`InvokeHostFunctionOp`, and `executor` the contract VM, which receives the
snapshot lookup specialized to the supplied handle.  A blob that does not
decode fails with a decode error before anything else runs; an executor
fault is surfaced as the error string; on success the resources are
finalized, the fee computed, and — when the footprint holds an entry whose
TTL is below the current ledger sequence — the pre-restore data and fee
are additionally populated. -/
def preflight_invoke_hf_op {Op : Type}
    (snapshot_source_get : Nat → xdr_t → Option xdr_t)
    (decodeOp : xdr_t → Option Op)
    (executor : Op → (xdr_t → Option xdr_t) → Except String ExecOutcome)
    (fee_config : FeeConfiguration)
    (handle : Nat) (bucket_list_size : Nat)
    (invoke_hf_op : xdr_t) (source_account : xdr_t)
    (ledger_info : ledger_info_t) (resource_config : resource_config_t)
    (enable_debug : Bool) : preflight_result_t :=
  match decodeOp invoke_hf_op with
  | none => errorResult "DecodeError: could not decode InvokeHostFunctionOp XDR"
  | some op =>
    match executor op (snapshot_source_get handle) with
    | Except.error e => errorResult e
    | Except.ok outcome =>
      let resources := finalizeResources outcome
      let breakdown := computeFeeExact resources fee_config
      let expired := outcome.footprint.entries.filter
        (fun e => decide (e.live_until_ledger_seq < ledger_info.sequence_number))
      { error := none
        auth := outcome.auth
        result := outcome.result
        transaction_data := encodeTransactionData resources
        min_fee := breakdown.fee
        events := outcome.events
        cpu_instructions := outcome.instructions
        memory_bytes := outcome.memory_bytes
        pre_restore_transaction_data :=
          if expired.isEmpty then none
          else some (encodeTransactionData (restoreResources expired))
        pre_restore_min_fee :=
          if expired.isEmpty then none
          else some (computeFeeExact (restoreResources expired) fee_config).fee }

/-- A configuration whose only non-zero price is a negative (but
`int64_t`-representable) per-read-entry price. -/
def negReadConfig : FeeConfiguration :=
  { fee_per_instruction_increment := 0, fee_per_read_entry := -1
    fee_per_write_entry := 0, fee_per_read_1kb := 0, fee_per_write_1kb := 0
    fee_per_historical_1kb := 0, fee_per_metadata_1kb := 0, fee_per_propagate_1kb := 0 }

/-- A resource vector reading a single entry and nothing else. -/
def oneReadResources : TransactionResources :=
  { zeroResources with read_entries := 1 }

/-- A snapshot source answering `absent` for every key. -/
def wGet : Nat → xdr_t → Option xdr_t := fun _ _ => none

/-- A snapshot source that agrees with `wGet` on handle `0` and differs on
every other handle. -/
def wGetAlt : Nat → xdr_t → Option xdr_t := fun h _ => if h = 0 then none else some []

/-- A decoder accepting every blob (decoding it to the trivial operation). -/
def wDecode : xdr_t → Option Nat := fun _ => some 0

/-- A decoder rejecting every blob. -/
def wDecodeFail : xdr_t → Option Nat := fun _ => none

/-- A concrete ledger context at sequence number 5. -/
def wLedgerInfo : ledger_info_t :=
  { protocol_version := 21, sequence_number := 5, timestamp := 100
    network_passphrase := "Test SDF Network ; September 2015", base_reserve := 5000000
    min_temp_entry_ttl := 16, min_persistent_entry_ttl := 120, max_entry_ttl := 6312000 }

/-- A footprint entry whose TTL (3) is below `wLedgerInfo`'s current
sequence number (5): an expired entry. -/
def wExpiredEntry : FootprintEntry :=
  { key := [1, 2], entry_size := 40, live_until_ledger_seq := 3 }

/-- A footprint entry whose TTL (9) is not below `wLedgerInfo`'s current
sequence number (5): a live entry. -/
def wLiveEntry : FootprintEntry :=
  { key := [3, 4], entry_size := 40, live_until_ledger_seq := 9 }

/-- A concrete executor outcome whose footprint holds one expired entry. -/
def wOutcomeExpired : ExecOutcome :=
  { footprint := { read_only := [wExpiredEntry], read_write := [] }
    instructions := 1000, read_bytes := 40, write_bytes := 0
    metadata_size_bytes := 0, transaction_size_bytes := 50
    result := [0], auth := [], events := [], memory_bytes := 7 }

/-- An executor that always succeeds with `wOutcomeExpired`. -/
def wExecExpired : Nat → (xdr_t → Option xdr_t) → Except String ExecOutcome :=
  fun _ _ => Except.ok wOutcomeExpired

/-- An executor that is never reached in the decode-failure witness. -/
def wExecUnused : Nat → (xdr_t → Option xdr_t) → Except String ExecOutcome :=
  fun _ _ => Except.error "unused"

/-! ## Helper lemmas -/

theorem ceil_div_mono {a b : Nat} (k : Nat) (h : a ≤ b) : ceil_div a k ≤ ceil_div b k := by
  unfold ceil_div
  exact Nat.div_le_div_right (by omega)

theorem fee_for_increment_mono {a b k : Nat} {p : Int} (hp : 0 ≤ p) (h : a ≤ b) :
    fee_for_increment a k p ≤ fee_for_increment b k p := by
  unfold fee_for_increment
  exact mul_le_mul_of_nonneg_right (by exact_mod_cast ceil_div_mono k h) hp

theorem zero_resources_fee_eq (c : FeeConfiguration) :
    computeFeeExact zeroResources c
      = { fee := c.fee_per_historical_1kb, refundable_fee := 0 } := by
  simp only [computeFeeExact, nonRefundableFee, refundableFee, fee_for_increment,
    zeroResources, ceil_div, INSTRUCTIONS_INCREMENT, DATA_SIZE_1KB_INCREMENT,
    TX_BASE_RESULT_SIZE]
  norm_num

/-! ## Claim theorems -/

/-- C1: on the spec's worked example — TransactionResources
{instructions := 25000, read_entries := 2, write_entries := 1,
read_bytes := 2048, write_bytes := 1024, metadata_size_bytes := 512,
transaction_size_bytes := 256} and FeeConfiguration {100, 10, 20, 5, 5,
2, 3, 1} — `ComputeTransactionResourceFee` returns exactly the fixed pair
(resource_fee, refundable_fee) = (371, 3) obtained by hand from the §4.1
formula: instructions ⌈25000/10000⌉·100 = 300, read entries
(2+1)·10 = 30 (written entries also count as read), write entries
1·20 = 20, read bytes ⌈2048/1024⌉·5 = 10, write bytes ⌈1024/1024⌉·5 = 5,
historical ⌈(256+TX_BASE_RESULT_SIZE)/1024⌉·2 = 2, propagate
⌈256/1024⌉·1 = 1, and the refundable metadata part ⌈512/1024⌉·3 = 3;
total 368 + 3 = 371. -/
theorem compute_fee_example_value :
    ComputeTransactionResourceFee exampleResources exampleConfig
      = Except.ok { fee := 371, refundable_fee := 3 } ∧
    computeFeeExact exampleResources exampleConfig = { fee := 371, refundable_fee := 3 } :=
  ⟨rfl, rfl⟩

/-- C2: the instruction charge uses ceiling division into
10000-instruction billing increments: for any `FeeConfiguration`, a
resource vector with exactly 10000 instructions (and nothing else) is
billed exactly 1 increment on top of the zero-resources fee, and one with
10001 instructions exactly 2 increments — the rounding is never toward
zero. -/
theorem instruction_fee_ceiling (c : FeeConfiguration) :
    (computeFeeExact { zeroResources with instructions := 10000 } c).fee
      = 1 * c.fee_per_instruction_increment + (computeFeeExact zeroResources c).fee
    ∧ (computeFeeExact { zeroResources with instructions := 10001 } c).fee
      = 2 * c.fee_per_instruction_increment + (computeFeeExact zeroResources c).fee := by
  constructor <;>
  · simp only [computeFeeExact, nonRefundableFee, refundableFee, fee_for_increment,
      zeroResources, ceil_div, INSTRUCTIONS_INCREMENT, DATA_SIZE_1KB_INCREMENT,
      TX_BASE_RESULT_SIZE]
    norm_num

/-- C4: applying the fee computation to the all-zero resource vector
yields exactly the protocol-defined minimum derived from
`TX_BASE_RESULT_SIZE` (only the historical charge survives, and the
refundable part is zero), and that minimum is strictly positive whenever
the configured historical price is (as every protocol price is). -/
theorem zero_resources_minimum_fee (c : FeeConfiguration) :
    (computeFeeExact zeroResources c).fee = minimumResourceFee c ∧
    (computeFeeExact zeroResources c).refundable_fee = 0 ∧
    (1 ≤ c.fee_per_historical_1kb → 0 < minimumResourceFee c) := by
  have hmin : minimumResourceFee c = c.fee_per_historical_1kb := by
    simp only [minimumResourceFee, ceil_div, TX_BASE_RESULT_SIZE, DATA_SIZE_1KB_INCREMENT]
    norm_num
  refine ⟨?_, ?_, ?_⟩
  · rw [zero_resources_fee_eq, hmin]
  · rw [zero_resources_fee_eq]
  · intro h
    rw [hmin]
    omega

/-- Witness for C4 at the worked example's configuration (historical
price 2 ≥ 1). -/
theorem zero_resources_minimum_fee_witness :
    (computeFeeExact zeroResources exampleConfig).fee = minimumResourceFee exampleConfig ∧
    0 < minimumResourceFee exampleConfig :=
  ⟨(zero_resources_minimum_fee exampleConfig).1,
   (zero_resources_minimum_fee exampleConfig).2.2 (by decide)⟩

/-- C3 counterexample: as stated — over *every* `FeeConfiguration`, whose
prices are signed `int64_t` in `fees.h` — monotonicity fails: with the
(representable) configuration whose per-read-entry price is -1, the
all-zero vector is componentwise below the one-read vector, yet its fee
(0) is strictly larger than the one-read fee (-1). -/
theorem compute_fee_monotone_cex :
    resources_le zeroResources oneReadResources ∧
    ¬ ((computeFeeExact zeroResources negReadConfig).fee
        ≤ (computeFeeExact oneReadResources negReadConfig).fee) := by
  decide

/-- C3 (amended): for every `FeeConfiguration` whose per-unit prices are
all nonnegative, the fee computation is monotone in the resources: if
every field of `r1` is at most the corresponding field of `r2`, then the
charged fee, the refundable part, and their sum computed for `r1` are at
most those computed for `r2`. -/
theorem compute_fee_monotone (c : FeeConfiguration) (r1 r2 : TransactionResources)
    (hinstr : 0 ≤ c.fee_per_instruction_increment)
    (hre : 0 ≤ c.fee_per_read_entry)
    (hwe : 0 ≤ c.fee_per_write_entry)
    (hrb : 0 ≤ c.fee_per_read_1kb)
    (hwb : 0 ≤ c.fee_per_write_1kb)
    (hh : 0 ≤ c.fee_per_historical_1kb)
    (hm : 0 ≤ c.fee_per_metadata_1kb)
    (hp : 0 ≤ c.fee_per_propagate_1kb)
    (hr : resources_le r1 r2) :
    (computeFeeExact r1 c).fee ≤ (computeFeeExact r2 c).fee ∧
    (computeFeeExact r1 c).refundable_fee ≤ (computeFeeExact r2 c).refundable_fee ∧
    (computeFeeExact r1 c).fee + (computeFeeExact r1 c).refundable_fee
      ≤ (computeFeeExact r2 c).fee + (computeFeeExact r2 c).refundable_fee := by
  obtain ⟨h1, h2, h3, h4, h5, h6, h7⟩ := hr
  have hnr : nonRefundableFee r1 c ≤ nonRefundableFee r2 c := by
    unfold nonRefundableFee
    refine add_le_add (add_le_add (add_le_add (add_le_add (add_le_add
      (add_le_add ?_ ?_) ?_) ?_) ?_) ?_) ?_
    · exact fee_for_increment_mono hinstr h1
    · exact mul_le_mul_of_nonneg_right (by exact_mod_cast Nat.add_le_add h2 h3) hre
    · exact mul_le_mul_of_nonneg_right (by exact_mod_cast h3) hwe
    · exact fee_for_increment_mono hrb h4
    · exact fee_for_increment_mono hwb h5
    · exact fee_for_increment_mono hh (by omega)
    · exact fee_for_increment_mono hp h7
  have hrf : refundableFee r1 c ≤ refundableFee r2 c := by
    unfold refundableFee
    exact fee_for_increment_mono hm h6
  refine ⟨?_, ?_, ?_⟩
  · exact add_le_add hnr hrf
  · exact hrf
  · exact add_le_add (add_le_add hnr hrf) hrf

/-- Witness for the amended C3 at the worked example's (all-nonnegative)
configuration and the pair zero-resources ≤ example-resources. -/
theorem compute_fee_monotone_witness :
    (computeFeeExact zeroResources exampleConfig).fee
      ≤ (computeFeeExact exampleResources exampleConfig).fee ∧
    (computeFeeExact zeroResources exampleConfig).refundable_fee
      ≤ (computeFeeExact exampleResources exampleConfig).refundable_fee ∧
    (computeFeeExact zeroResources exampleConfig).fee
        + (computeFeeExact zeroResources exampleConfig).refundable_fee
      ≤ (computeFeeExact exampleResources exampleConfig).fee
        + (computeFeeExact exampleResources exampleConfig).refundable_fee :=
  compute_fee_monotone exampleConfig zeroResources exampleResources
    (by decide) (by decide) (by decide) (by decide) (by decide) (by decide)
    (by decide) (by decide) (by decide)

/-- C7: fee arithmetic never silently wraps: whenever
`ComputeTransactionResourceFee` produces a result, each of its `uint64_t`
fields equals the exact mathematical-integer value of the §4.1 formula,
and whenever that exact value does not fit the `uint64_t` output type the
call fails with the distinct computation error instead. -/
theorem compute_fee_no_silent_wrap (r : TransactionResources) (c : FeeConfiguration) :
    (∀ res, ComputeTransactionResourceFee r c = Except.ok res →
        ((res.fee : Int) = (computeFeeExact r c).fee ∧
         (res.refundable_fee : Int) = (computeFeeExact r c).refundable_fee)) ∧
    (¬ (0 ≤ (computeFeeExact r c).fee ∧ (computeFeeExact r c).fee ≤ UINT64_MAX ∧
          0 ≤ (computeFeeExact r c).refundable_fee ∧
          (computeFeeExact r c).refundable_fee ≤ UINT64_MAX) →
        ComputeTransactionResourceFee r c = Except.error "fee computation overflow") := by
  constructor
  · intro res hres
    unfold ComputeTransactionResourceFee at hres
    split at hres
    case isTrue hcond =>
      injection hres with h
      subst h
      constructor
      · exact Int.toNat_of_nonneg hcond.1
      · exact Int.toNat_of_nonneg hcond.2.2.1
    case isFalse hcond =>
      exact absurd hres (by simp)
  · intro hnot
    unfold ComputeTransactionResourceFee
    rw [if_neg hnot]

/-- Witness for C7 at the worked example, where the call produces
`Except.ok ⟨371, 3⟩` and both fields equal the exact formula value. -/
theorem compute_fee_no_silent_wrap_witness :
    ((371 : Nat) : Int) = (computeFeeExact exampleResources exampleConfig).fee ∧
    ((3 : Nat) : Int) = (computeFeeExact exampleResources exampleConfig).refundable_fee :=
  (compute_fee_no_silent_wrap exampleResources exampleConfig).1
    { fee := 371, refundable_fee := 3 } rfl

/-- C9: every `TransactionResources` finalized from an executor outcome —
and likewise the resource vector of the prerequired restore operation —
satisfies `write_entries ≤ read_entries` (each written entry is also
counted among the read entries) with every field nonnegative.  The
embedding is purely functional, so a produced vector is never mutated by
construction. -/
theorem transaction_resources_invariant (o : ExecOutcome) (expired : List FootprintEntry) :
    (finalizeResources o).write_entries ≤ (finalizeResources o).read_entries ∧
    (restoreResources expired).write_entries ≤ (restoreResources expired).read_entries ∧
    0 ≤ (finalizeResources o).instructions ∧
    0 ≤ (finalizeResources o).read_entries ∧
    0 ≤ (finalizeResources o).write_entries ∧
    0 ≤ (finalizeResources o).read_bytes ∧
    0 ≤ (finalizeResources o).write_bytes ∧
    0 ≤ (finalizeResources o).metadata_size_bytes ∧
    0 ≤ (finalizeResources o).transaction_size_bytes :=
  ⟨Nat.le_add_left _ _, Nat.le.refl, Nat.zero_le _, Nat.zero_le _, Nat.zero_le _,
   Nat.zero_le _, Nat.zero_le _, Nat.zero_le _, Nat.zero_le _⟩

/-- C6: for every input whose operation blob does not decode,
`preflight_invoke_hf_op` returns the decode-error result: the error field
is set to the decode error and no footprint, transaction-data or fee
field is populated (the error is mutually exclusive with all success
fields).  The modelled call is a total Lean function, so it never
panics. -/
theorem preflight_decode_error {Op : Type}
    (snapshot_source_get : Nat → xdr_t → Option xdr_t)
    (decodeOp : xdr_t → Option Op)
    (executor : Op → (xdr_t → Option xdr_t) → Except String ExecOutcome)
    (fee_config : FeeConfiguration) (handle bucket_list_size : Nat)
    (invoke_hf_op source_account : xdr_t) (ledger_info : ledger_info_t)
    (resource_config : resource_config_t) (enable_debug : Bool)
    (hdec : decodeOp invoke_hf_op = none) :
    preflight_invoke_hf_op snapshot_source_get decodeOp executor fee_config handle
        bucket_list_size invoke_hf_op source_account ledger_info resource_config
        enable_debug
      = errorResult "DecodeError: could not decode InvokeHostFunctionOp XDR" ∧
    (errorResult "DecodeError: could not decode InvokeHostFunctionOp XDR").error
      = some "DecodeError: could not decode InvokeHostFunctionOp XDR" ∧
    (errorResult "DecodeError: could not decode InvokeHostFunctionOp XDR").auth = [] ∧
    (errorResult "DecodeError: could not decode InvokeHostFunctionOp XDR").result = [] ∧
    (errorResult "DecodeError: could not decode InvokeHostFunctionOp XDR").transaction_data
      = [] ∧
    (errorResult "DecodeError: could not decode InvokeHostFunctionOp XDR").min_fee = 0 ∧
    (errorResult "DecodeError: could not decode InvokeHostFunctionOp XDR").events = [] ∧
    (errorResult "DecodeError: could not decode InvokeHostFunctionOp XDR").cpu_instructions
      = 0 ∧
    (errorResult "DecodeError: could not decode InvokeHostFunctionOp XDR").memory_bytes
      = 0 ∧
    (errorResult
        "DecodeError: could not decode InvokeHostFunctionOp XDR").pre_restore_transaction_data
      = none ∧
    (errorResult "DecodeError: could not decode InvokeHostFunctionOp XDR").pre_restore_min_fee
      = none := by
  refine ⟨?_, rfl, rfl, rfl, rfl, rfl, rfl, rfl, rfl, rfl, rfl⟩
  simp only [preflight_invoke_hf_op, hdec]

/-- Witness for C6: a decoder that rejects every blob makes the concrete
call fail with the decode error and empty success fields. -/
theorem preflight_decode_error_witness :
    preflight_invoke_hf_op wGet wDecodeFail wExecUnused exampleConfig 0 0
        [] [] wLedgerInfo { instruction_leeway := 0 } false
      = errorResult "DecodeError: could not decode InvokeHostFunctionOp XDR" ∧
    (errorResult "DecodeError: could not decode InvokeHostFunctionOp XDR").error
      = some "DecodeError: could not decode InvokeHostFunctionOp XDR" ∧
    (errorResult "DecodeError: could not decode InvokeHostFunctionOp XDR").auth = [] ∧
    (errorResult "DecodeError: could not decode InvokeHostFunctionOp XDR").result = [] ∧
    (errorResult "DecodeError: could not decode InvokeHostFunctionOp XDR").transaction_data
      = [] ∧
    (errorResult "DecodeError: could not decode InvokeHostFunctionOp XDR").min_fee = 0 ∧
    (errorResult "DecodeError: could not decode InvokeHostFunctionOp XDR").events = [] ∧
    (errorResult "DecodeError: could not decode InvokeHostFunctionOp XDR").cpu_instructions
      = 0 ∧
    (errorResult "DecodeError: could not decode InvokeHostFunctionOp XDR").memory_bytes
      = 0 ∧
    (errorResult
        "DecodeError: could not decode InvokeHostFunctionOp XDR").pre_restore_transaction_data
      = none ∧
    (errorResult "DecodeError: could not decode InvokeHostFunctionOp XDR").pre_restore_min_fee
      = none :=
  preflight_decode_error wGet wDecodeFail wExecUnused exampleConfig 0 0
    [] [] wLedgerInfo { instruction_leeway := 0 } false rfl

/-- C5: for every successful simulation (the blob decodes and the executor
succeeds with outcome `o`): when the footprint holds at least one entry
whose TTL is below the current ledger sequence, the returned envelope's
`pre_restore_transaction_data` and `pre_restore_min_fee` are populated;
when it holds no such expired entry, both are left absent. -/
theorem preflight_pre_restore_fields {Op : Type}
    (snapshot_source_get : Nat → xdr_t → Option xdr_t)
    (decodeOp : xdr_t → Option Op)
    (executor : Op → (xdr_t → Option xdr_t) → Except String ExecOutcome)
    (fee_config : FeeConfiguration) (handle bucket_list_size : Nat)
    (invoke_hf_op source_account : xdr_t) (ledger_info : ledger_info_t)
    (resource_config : resource_config_t) (enable_debug : Bool)
    (o : ExecOutcome) (hop : Op)
    (hdec : decodeOp invoke_hf_op = some hop)
    (hexec : executor hop (snapshot_source_get handle) = Except.ok o) :
    ((∃ e ∈ o.footprint.entries, e.live_until_ledger_seq < ledger_info.sequence_number) →
      (preflight_invoke_hf_op snapshot_source_get decodeOp executor fee_config handle
          bucket_list_size invoke_hf_op source_account ledger_info resource_config
          enable_debug).pre_restore_transaction_data ≠ none ∧
      (preflight_invoke_hf_op snapshot_source_get decodeOp executor fee_config handle
          bucket_list_size invoke_hf_op source_account ledger_info resource_config
          enable_debug).pre_restore_min_fee ≠ none) ∧
    ((∀ e ∈ o.footprint.entries, ¬ e.live_until_ledger_seq < ledger_info.sequence_number) →
      (preflight_invoke_hf_op snapshot_source_get decodeOp executor fee_config handle
          bucket_list_size invoke_hf_op source_account ledger_info resource_config
          enable_debug).pre_restore_transaction_data = none ∧
      (preflight_invoke_hf_op snapshot_source_get decodeOp executor fee_config handle
          bucket_list_size invoke_hf_op source_account ledger_info resource_config
          enable_debug).pre_restore_min_fee = none) := by
  constructor
  · rintro ⟨e, he, hlt⟩
    have hmem : e ∈ o.footprint.entries.filter
        (fun e => decide (e.live_until_ledger_seq < ledger_info.sequence_number)) :=
      List.mem_filter.mpr ⟨he, by simpa using hlt⟩
    have hne : (o.footprint.entries.filter
        (fun e => decide (e.live_until_ledger_seq < ledger_info.sequence_number))).isEmpty
          = false := by
      cases hfil : o.footprint.entries.filter
          (fun e => decide (e.live_until_ledger_seq < ledger_info.sequence_number)) with
      | nil => rw [hfil] at hmem; cases hmem
      | cons a l => simp [hfil]
    simp only [preflight_invoke_hf_op, hdec, hexec, hne]
    simp
  · intro hall
    have hnil : o.footprint.entries.filter
        (fun e => decide (e.live_until_ledger_seq < ledger_info.sequence_number)) = [] :=
      List.filter_eq_nil_iff.mpr (fun a ha => by simpa using hall a ha)
    simp only [preflight_invoke_hf_op, hdec, hexec, hnil]
    simp

/-- Witness for C5: a concrete successful simulation whose footprint holds
the expired entry `wExpiredEntry` (TTL 3 < current sequence 5) has both
pre-restore fields populated. -/
theorem preflight_pre_restore_fields_witness :
    (preflight_invoke_hf_op wGet wDecode wExecExpired exampleConfig 0 0
        [] [] wLedgerInfo { instruction_leeway := 0 }
        false).pre_restore_transaction_data ≠ none ∧
    (preflight_invoke_hf_op wGet wDecode wExecExpired exampleConfig 0 0
        [] [] wLedgerInfo { instruction_leeway := 0 }
        false).pre_restore_min_fee ≠ none :=
  (preflight_pre_restore_fields wGet wDecode wExecExpired exampleConfig 0 0
      [] [] wLedgerInfo { instruction_leeway := 0 } false wOutcomeExpired 0 rfl rfl).1
    ⟨wExpiredEntry, by decide, by decide⟩

/-- C8 counterexample: the claim that the snapshot capability provides a
second extern operation `has(handle, key)` is false of the header:
`preflight.h` declares `SnapshotSourceGet` as the only snapshot-source
callback, and no `SnapshotSourceHas` is among the declared operations. -/
theorem snapshot_has_not_declared :
    "SnapshotSourceHas" ∉ snapshotSourceOps.map Prod.fst := by
  decide

/-- C8 (amended): the snapshot capability consumed by the simulator
provides only the point lookup — the declared operations contain
`SnapshotSourceGet` with its two arguments and nothing named
`SnapshotSourceHas`. -/
theorem snapshot_ops_get_only :
    (∃ p ∈ snapshotSourceOps, p.1 = "SnapshotSourceGet" ∧ p.2 = 2) ∧
    (∀ p ∈ snapshotSourceOps, p.1 ≠ "SnapshotSourceHas") := by
  decide

/-- C10: the snapshot lookup takes exactly two arguments — a handle and a
ledger key — and the simulation's result depends on the snapshot source
only through that pair-indexed function: two sources that agree on the
supplied handle (with no further per-call flag to vary) yield identical
preflight results. -/
theorem snapshot_get_pair_function {Op : Type}
    (get1 get2 : Nat → xdr_t → Option xdr_t)
    (decodeOp : xdr_t → Option Op)
    (executor : Op → (xdr_t → Option xdr_t) → Except String ExecOutcome)
    (fee_config : FeeConfiguration) (handle bucket_list_size : Nat)
    (invoke_hf_op source_account : xdr_t) (ledger_info : ledger_info_t)
    (resource_config : resource_config_t) (enable_debug : Bool)
    (hagree : ∀ k, get1 handle k = get2 handle k) :
    ("SnapshotSourceGet", 2) ∈ snapshotSourceOps ∧
    preflight_invoke_hf_op get1 decodeOp executor fee_config handle bucket_list_size
        invoke_hf_op source_account ledger_info resource_config enable_debug
      = preflight_invoke_hf_op get2 decodeOp executor fee_config handle bucket_list_size
          invoke_hf_op source_account ledger_info resource_config enable_debug := by
  have h : get1 handle = get2 handle := funext hagree
  exact ⟨by decide, by simp only [preflight_invoke_hf_op, h]⟩

/-- Witness for C10: `wGet` and `wGetAlt` differ on every non-zero handle
but agree on handle 0, so the two concrete preflight calls coincide. -/
theorem snapshot_get_pair_function_witness :
    ("SnapshotSourceGet", 2) ∈ snapshotSourceOps ∧
    preflight_invoke_hf_op wGet wDecode wExecExpired exampleConfig 0 0
        [] [] wLedgerInfo { instruction_leeway := 0 } false
      = preflight_invoke_hf_op wGetAlt wDecode wExecExpired exampleConfig 0 0
          [] [] wLedgerInfo { instruction_leeway := 0 } false :=
  snapshot_get_pair_function wGet wGetAlt wDecode wExecExpired exampleConfig 0 0
    [] [] wLedgerInfo { instruction_leeway := 0 } false (fun _ => rfl)
